import Mathlib

/-!
Shallow embedding of the Ann Arbor EV telemetry dashboard
(`src/data_handler.py`, `src/main_dashboard.py`).

Telemetry rows are modelled as records with exact rational numeric
fields; the pandas dataframe is a `List` of rows.  The Dash callbacks
`reset_simulation_cycle` and `update_multi_trip_dashboard` are modelled
as pure functions: the per-tick callback receives the data handler's
dataframe plus the callback inputs and returns the (unchanged)
dataframe together with the emitted figure traces and metric strings.
Metric outputs are modelled one step before string formatting: either a
placeholder string (the f-string never runs) or the exact numeric value
that the f-string would round for display.
-/

/-- One cleaned telemetry row (a row of the handler's dataframe after
`_load_and_prepare_data`): parsed timestamp plus the columns the
dashboard reads. -/
structure Sample where
  ts : Int
  vehId : Int
  trip : Int
  lat : ℚ
  lon : ℚ
  speed : ℚ
  soc : ℚ
  voltage : ℚ
  power : ℚ
  accumEnergy : ℚ
deriving Repr, DecidableEq

instance : Inhabited Sample :=
  ⟨⟨0, 0, 0, 0, 0, 0, 0, 0, 0, 0⟩⟩

/-- One raw CSV row before cleaning: the `Timestamp(ms)` cell may fail
to parse (`pd.to_datetime(..., errors="coerce")` yields `NaT`),
modelled by `none`. -/
structure RawRow where
  tsMs : Option Int
  vehId : Int
  trip : Int
  lat : ℚ
  lon : ℚ
  speed : ℚ
  soc : ℚ
  voltage : ℚ
  power : ℚ
  accumEnergy : ℚ
deriving Repr, DecidableEq

/-- A raw row survives cleaning iff its timestamp parsed
(`df.dropna(subset=["Timestamp"])`). -/
def RawRow.toSample : RawRow → Option Sample
  | r => r.tsMs.map fun t =>
      ⟨t, r.vehId, r.trip, r.lat, r.lon, r.speed, r.soc, r.voltage, r.power, r.accumEnergy⟩

/-- Timestamp comparison used by `df.sort_values("Timestamp")`. -/
def tsLe (a b : Sample) : Bool := a.ts ≤ b.ts

/-- `DataHandler._load_and_prepare_data`: drop rows whose timestamp
failed to parse, then sort the whole dataframe by timestamp
ascending. -/
def loadAndPrepareData (raws : List RawRow) : List Sample :=
  (raws.filterMap RawRow.toSample).mergeSort tsLe

/-- `DataHandler.get_trip_data`: filter rows matching `VehId` and
`Trip`; `.copy()` / `reset_index(drop=True)` return a fresh frame, so
the result is a new list and the stored dataframe is untouched. -/
def getTripData (df : List Sample) (vehicleId tripId : Int) : List Sample :=
  df.filter fun s => s.vehId == vehicleId && s.trip == tripId

/-- `TARGET_SIMULATION_SECONDS = 40.0` in `update_multi_trip_dashboard`. -/
def TARGET_SIMULATION_SECONDS : Nat := 40

/-- `INTERVAL_MS = 500.0`, matching the `dcc.Interval` period. -/
def INTERVAL_MS : Nat := 500

/-- `total_ticks_for_sim = (40.0 * 1000) / 500.0 = 80.0`; exact in
floats, so a natural number models it faithfully. -/
def totalTicksForSim : Nat := TARGET_SIMULATION_SECONDS * 1000 / INTERVAL_MS

/-- `step_size = max(1, ceil(max_duration / total_ticks_for_sim))` when
`max_duration > 0`, else the initial `1`.  For realistic dataframe
sizes the float division is within half an ulp of the rational value,
so the natural-number ceiling `(maxD + 79) / 80` is exact. -/
def stepSize (maxDuration : Nat) : Nat :=
  if maxDuration > 0 ∧ totalTicksForSim > 0 then
    max 1 ((maxDuration + (totalTicksForSim - 1)) / totalTicksForSim)
  else 1

/-- `max_duration = max(durations) if any(d for d in durations if d > 0) else 0`
for the two selected trips. -/
def maxDurationOf (d1 d2 : Nat) : Nat :=
  if d1 > 0 ∨ d2 > 0 then max d1 d2 else 0

/-- The pre-modulo index: `0` when the cycle-start store is unset or
`max_duration == 0`, otherwise `elapsed_ticks * step_size`. -/
def preIndex (nIntervals : Int) (cycleStart : Option Int) (maxDuration : Nat) : Int :=
  match cycleStart with
  | none => 0
  | some cs => if maxDuration = 0 then 0 else (nIntervals - cs) * (stepSize maxDuration : Int)

/-- `current_data_index` after the wrap-around step: reduced modulo
`max_duration` when positive (Python `%` on a positive modulus is the
Euclidean remainder, as is Lean's `Int.emod`), `0` otherwise. -/
def currentDataIndex (nIntervals : Int) (cycleStart : Option Int) (maxDuration : Nat) : Nat :=
  if maxDuration > 0 then
    ((preIndex nIntervals cycleStart maxDuration) % (maxDuration : Int)).toNat
  else 0

/-- Per-trip `current_index = min(current_data_index, duration - 1)`
(taken only when `duration > 0`, else `0`). -/
def currentIndex (cdi duration : Nat) : Nat :=
  if duration > 0 then min cdi (duration - 1) else 0

/-- An emitted metric, one step before display formatting: either a
placeholder string emitted verbatim, or the exact numeric value the
f-string would round. -/
inductive MetricOut where
  | placeholder (text : String)
  | value (q : ℚ)
deriving Repr, DecidableEq

/-- The initial `metrics_outputs` entries for one vehicle slot:
`["-- km/h", "-- %", "-- V", "-- kW", "-- kWh", "--", "--"]`. -/
def initialSlotMetrics : List MetricOut :=
  [.placeholder "-- km/h", .placeholder "-- %", .placeholder "-- V",
   .placeholder "-- kW", .placeholder "-- kWh", .placeholder "--", .placeholder "--"]

/-- The seven metric outputs for one vehicle slot.  On a non-empty
trip the current sample's speed, SOC, voltage, power / 1000 and
accumulated energy are written; positions 5 and 6 are overwritten with
the `"--"` placeholder (the code comments call them MDR and
Degradation; the callback outputs wire position 5 to the Degradation
widget and position 6 to the MDR widget, both `"--"`). -/
def slotMetrics (trip : List Sample) (cdi : Nat) : List MetricOut :=
  if trip.isEmpty then initialSlotMetrics
  else
    let s := trip.getD (currentIndex cdi trip.length) default
    [.value s.speed, .value s.soc, .value s.voltage,
     .value (s.power / 1000), .value s.accumEnergy, .placeholder "--", .placeholder "--"]

/-- One figure trace: the slot that added it, whether it is the car
marker (`mode="markers"`) or the path line (`mode="lines"`), and its
latitude/longitude sequence. -/
structure Trace where
  slot : Nat
  isMarker : Bool
  positions : List (ℚ × ℚ)
deriving Repr, DecidableEq

/-- The traces added for one vehicle slot: nothing when the trip frame
is empty; otherwise the path line over `trip_df.iloc[:current_index+1]`
followed by the car marker at `trip_df.iloc[current_index]`. -/
def slotTraces (slot : Nat) (trip : List Sample) (cdi : Nat) : List Trace :=
  if trip.isEmpty then []
  else
    let idx := currentIndex cdi trip.length
    let s := trip.getD idx default
    [⟨slot, false, (trip.take (idx + 1)).map fun r => (r.lat, r.lon)⟩,
     ⟨slot, true, [(s.lat, s.lon)]⟩]

/-- Everything `update_multi_trip_dashboard` returns: the figure's
traces and the 14 metric outputs (7 per slot). -/
structure DashOutputs where
  traces : List Trace
  metrics : List MetricOut
deriving Repr, DecidableEq

/-- The body of `update_multi_trip_dashboard` after the two
`get_trip_data` calls: compute durations, `max_duration`, the shared
`current_data_index`, then per-slot traces and metrics. -/
def updateCore (trip1 trip2 : List Sample) (nIntervals : Int) (cycleStart : Option Int) :
    DashOutputs :=
  let maxDuration := maxDurationOf trip1.length trip2.length
  let cdi := currentDataIndex nIntervals cycleStart maxDuration
  { traces := slotTraces 0 trip1 cdi ++ slotTraces 1 trip2 cdi
    metrics := slotMetrics trip1 cdi ++ slotMetrics trip2 cdi }

/-- The callback inputs of `update_multi_trip_dashboard`: the interval
counter, the two vehicle/trip selections, and the cycle-start store. -/
structure DashInputs where
  nIntervals : Int
  vehicleId1 : Int
  vehicleId2 : Int
  tripId1 : Int
  tripId2 : Int
  cycleStart : Option Int
deriving Repr, DecidableEq

/-- `update_multi_trip_dashboard` as a state-passing function over the
handler's dataframe: it re-fetches both trip frames from the store on
every call and performs no write, so the returned dataframe is the one
it was given. -/
def updateMultiTripDashboard (df : List Sample) (inp : DashInputs) :
    List Sample × DashOutputs :=
  (df, updateCore
        (getTripData df inp.vehicleId1 inp.tripId1)
        (getTripData df inp.vehicleId2 inp.tripId2)
        inp.nIntervals inp.cycleStart)

/-- `reset_simulation_cycle`: whenever either trip selection changes it
stores the current interval count; the previous store contents are not
even an input of the callback. -/
def resetSimulationCycle (trip1 trip2 : Option Int) (nIntervals : Int) : Int :=
  nIntervals

/-- Modelled from the spec: `DegradationCurve.interpolate` (§4.1) is
absent from `src/` — piecewise-linear interpolation over a control
table with flat clamping below the first and above the last point. -/
def interpolate : List (ℚ × ℚ) → ℚ → ℚ
  | [], _ => 0
  | [(_, y)], _ => y
  | (x1, y1) :: (x2, y2) :: rest, x =>
    if x ≤ x1 then y1
    else if x ≤ x2 then
      if x2 = x1 then y2 else y1 + (x - x1) * (y2 - y1) / (x2 - x1)
    else interpolate ((x2, y2) :: rest) x

/-- The spec's example calibration table: `(0,0.0),(60,0.0),(100,1.0)`. -/
def exampleCurve : List (ℚ × ℚ) := [(0, 0), (60, 0), (100, 1)]

/-! ### Helper lemmas -/

theorem slotMetrics_length (t : List Sample) (c : Nat) : (slotMetrics t c).length = 7 := by
  cases h : t.isEmpty <;> simp [slotMetrics, initialSlotMetrics, h]

theorem slotMetrics_of_ne_nil (t : List Sample) (c : Nat) (h : t ≠ []) :
    slotMetrics t c =
      [.value (t.getD (currentIndex c t.length) default).speed,
       .value (t.getD (currentIndex c t.length) default).soc,
       .value (t.getD (currentIndex c t.length) default).voltage,
       .value ((t.getD (currentIndex c t.length) default).power / 1000),
       .value (t.getD (currentIndex c t.length) default).accumEnergy,
       .placeholder "--", .placeholder "--"] := by
  have he : t.isEmpty = false := by
    cases t with
    | nil => exact absurd rfl h
    | cons a l => rfl
  simp [slotMetrics, he]

theorem currentIndex_lt {cdi d : Nat} (h : 0 < d) : currentIndex cdi d < d := by
  unfold currentIndex
  rw [if_pos h]
  omega

theorem updateCore_metrics (trip1 trip2 : List Sample) (n : Int) (cs : Option Int) :
    (updateCore trip1 trip2 n cs).metrics =
      slotMetrics trip1 (currentDataIndex n cs (maxDurationOf trip1.length trip2.length)) ++
      slotMetrics trip2 (currentDataIndex n cs (maxDurationOf trip1.length trip2.length)) := rfl

theorem updateCore_traces (trip1 trip2 : List Sample) (n : Int) (cs : Option Int) :
    (updateCore trip1 trip2 n cs).traces =
      slotTraces 0 trip1 (currentDataIndex n cs (maxDurationOf trip1.length trip2.length)) ++
      slotTraces 1 trip2 (currentDataIndex n cs (maxDurationOf trip1.length trip2.length)) := rfl

theorem metrics_getD_left (trip1 trip2 : List Sample) (n : Int) (cs : Option Int)
    (k : Nat) (hk : k < 7) (d : MetricOut) :
    (updateCore trip1 trip2 n cs).metrics.getD k d =
      (slotMetrics trip1
        (currentDataIndex n cs (maxDurationOf trip1.length trip2.length))).getD k d := by
  rw [updateCore_metrics]
  simp only [List.getD_eq_getElem?_getD]
  rw [List.getElem?_append_left]
  rw [slotMetrics_length]
  exact hk

theorem metrics_getD_right (trip1 trip2 : List Sample) (n : Int) (cs : Option Int)
    (k : Nat) (hk : 7 ≤ k) (d : MetricOut) :
    (updateCore trip1 trip2 n cs).metrics.getD k d =
      (slotMetrics trip2
        (currentDataIndex n cs (maxDurationOf trip1.length trip2.length))).getD (k - 7) d := by
  rw [updateCore_metrics]
  simp only [List.getD_eq_getElem?_getD]
  rw [List.getElem?_append_right (by rw [slotMetrics_length]; exact hk)]
  rw [slotMetrics_length]

theorem slotTraces_slot (s : Nat) (t : List Sample) (c : Nat) :
    ∀ tr ∈ slotTraces s t c, tr.slot = s := by
  intro tr htr
  cases h : t.isEmpty <;> simp [slotTraces, h] at htr
  rcases htr with h1 | h1 <;> simp [h1]

theorem slotMetrics_getD_tail (t : List Sample) (c : Nat) :
    (slotMetrics t c).getD 5 (.placeholder "") = .placeholder "--" ∧
    (slotMetrics t c).getD 6 (.placeholder "") = .placeholder "--" := by
  cases h : t.isEmpty <;> simp [slotMetrics, initialSlotMetrics, h]

/-! ### Concrete data for counterexamples and witnesses -/

/-- A two-sample trip whose samples are distinguished by speed. -/
def c1trip1 : List Sample :=
  [⟨0, 1, 1, 0, 0, 10, 0, 0, 0, 0⟩, ⟨1, 1, 1, 0, 0, 20, 0, 0, 0, 0⟩]

/-- A five-sample trip sharing the dashboard with `c1trip1`. -/
def c1trip2 : List Sample := List.replicate 5 default

/-- A one-sample trip. -/
def c2trip : List Sample := [default]

/-- A one-sample trip whose sample reports a negative state of charge. -/
def c3trip : List Sample := [⟨0, 1, 1, 0, 0, 0, -5, 0, 0, 0⟩]

/-! ### Claims -/

/-- C6: for every pair of selected trips and every tick, the per-trip
sample index actually used to read a sample (`min` of the shared
modulo-reduced index against this trip's last index) is within bounds
for that trip whenever the trip is non-empty, so the positional sample
access never goes out of range. -/
theorem C6_sample_index_in_bounds (trip1 trip2 : List Sample) (n : Int) (cs : Option Int) :
    (trip1 ≠ [] →
      currentIndex (currentDataIndex n cs (maxDurationOf trip1.length trip2.length))
        trip1.length < trip1.length) ∧
    (trip2 ≠ [] →
      currentIndex (currentDataIndex n cs (maxDurationOf trip1.length trip2.length))
        trip2.length < trip2.length) := by
  constructor <;> intro h <;> exact currentIndex_lt (List.length_pos.mpr h)

/-- Witness for C6 at a concrete input. -/
theorem C6_sample_index_in_bounds_witness :
    currentIndex (currentDataIndex 3 (some 0)
        (maxDurationOf ([default] : List Sample).length ([] : List Sample).length))
      ([default] : List Sample).length < ([default] : List Sample).length :=
  (C6_sample_index_in_bounds [default] [] 3 (some 0)).1 (List.cons_ne_nil _ _)

/-- C4: a selection with zero samples — in particular an unknown
(vehicleId, tripId) pair, for which `get_trip_data` returns an empty
frame — is not an error: the per-tick update leaves that slot's
placeholder metric strings unchanged and adds no path or marker trace
for that slot. -/
theorem C4_empty_selection (df : List Sample) (inp : DashInputs)
    (hmiss : ∀ s ∈ df, ¬(s.vehId = inp.vehicleId1 ∧ s.trip = inp.tripId1)) :
    getTripData df inp.vehicleId1 inp.tripId1 = [] ∧
    (updateMultiTripDashboard df inp).2.metrics.take 7 = initialSlotMetrics ∧
    ∀ tr ∈ (updateMultiTripDashboard df inp).2.traces, tr.slot ≠ 0 := by
  have hnil : getTripData df inp.vehicleId1 inp.tripId1 = [] := by
    refine List.filter_eq_nil_iff.mpr ?_
    intro s hs
    simp only [Bool.and_eq_true, beq_iff_eq]
    exact hmiss s hs
  have hupd : (updateMultiTripDashboard df inp).2 =
      updateCore [] (getTripData df inp.vehicleId2 inp.tripId2) inp.nIntervals inp.cycleStart := by
    simp only [updateMultiTripDashboard]
    rw [hnil]
  have hm0 : ∀ c : Nat, slotMetrics [] c = initialSlotMetrics := fun _ => rfl
  have ht0 : ∀ c : Nat, slotTraces 0 ([] : List Sample) c = [] := fun _ => rfl
  refine ⟨hnil, ?_, ?_⟩
  · rw [hupd, updateCore_metrics, hm0]
    exact List.take_left' rfl
  · rw [hupd, updateCore_traces, ht0]
    intro tr htr
    simp only [List.nil_append] at htr
    have := slotTraces_slot 1 _ _ tr htr
    omega

/-- Witness for C4 at a concrete input: the store holds only rows of
vehicle 1 / trip 1, and slot 1 asks for vehicle 2 / trip 9. -/
theorem C4_empty_selection_witness :
    getTripData c3trip 2 9 = [] ∧
    (updateMultiTripDashboard c3trip ⟨0, 2, 1, 9, 1, some 0⟩).2.metrics.take 7 =
      initialSlotMetrics ∧
    ∀ tr ∈ (updateMultiTripDashboard c3trip ⟨0, 2, 1, 9, 1, some 0⟩).2.traces, tr.slot ≠ 0 :=
  C4_empty_selection c3trip ⟨0, 2, 1, 9, 1, some 0⟩ (by decide)

/-- C2 (amended): the emitted MDR and degradation metrics are always
the placeholder string, for both slots, on every tick — no
degradation-curve interpolation occurs anywhere in the update. -/
theorem C2_mdr_always_placeholder (trip1 trip2 : List Sample) (n : Int) (cs : Option Int) :
    (updateCore trip1 trip2 n cs).metrics.getD 6 (.placeholder "") = .placeholder "--" ∧
    (updateCore trip1 trip2 n cs).metrics.getD 5 (.placeholder "") = .placeholder "--" ∧
    (updateCore trip1 trip2 n cs).metrics.getD 13 (.placeholder "") = .placeholder "--" ∧
    (updateCore trip1 trip2 n cs).metrics.getD 12 (.placeholder "") = .placeholder "--" := by
  refine ⟨?_, ?_, ?_, ?_⟩
  · rw [metrics_getD_left _ _ _ _ 6 (by omega)]
    exact (slotMetrics_getD_tail _ _).2
  · rw [metrics_getD_left _ _ _ _ 5 (by omega)]
    exact (slotMetrics_getD_tail _ _).1
  · rw [metrics_getD_right _ _ _ _ 13 (by omega)]
    exact (slotMetrics_getD_tail _ _).2
  · rw [metrics_getD_right _ _ _ _ 12 (by omega)]
    exact (slotMetrics_getD_tail _ _).1

/-- C2 counterexample: on a tick with a non-empty selection the MDR
output is the placeholder `"--"`, not the value of the (spec-modelled)
degradation-curve interpolation at any distance — e.g. not the spec's
own example `interpolate 80 = 1/2`. -/
theorem C2_counterexample :
    (updateCore c2trip [] 0 (some 0)).metrics.getD 6 (.placeholder "") = .placeholder "--" ∧
    (updateCore c2trip [] 0 (some 0)).metrics.getD 5 (.placeholder "") = .placeholder "--" ∧
    interpolate exampleCurve 80 = 1 / 2 ∧
    MetricOut.placeholder "--" ≠ .value (interpolate exampleCurve 80) := by
  refine ⟨rfl, rfl, ?_, ?_⟩
  · norm_num [interpolate, exampleCurve]
  · simp

/-- C3 (amended): the reported state of charge is the current sample's
SOC verbatim — no clamping to 0 ever happens, and there is no halted
flag: the callback recomputes the looping index and outputs on every
tick from the only per-session state, the cycle-start tick. -/
theorem C3_soc_unclamped (trip1 trip2 : List Sample) (n : Int) (cs : Option Int)
    (h : trip1 ≠ []) :
    (updateCore trip1 trip2 n cs).metrics.getD 1 (.placeholder "") =
      .value ((trip1.getD (currentIndex
        (currentDataIndex n cs (maxDurationOf trip1.length trip2.length))
        trip1.length) default).soc) := by
  rw [metrics_getD_left _ _ _ _ 1 (by omega)]
  rw [slotMetrics_of_ne_nil _ _ h]
  rfl

/-- Witness for C3 (amended) at a concrete input. -/
theorem C3_soc_unclamped_witness :
    (updateCore c3trip [] 7 (some 2)).metrics.getD 1 (.placeholder "") =
      .value ((c3trip.getD (currentIndex
        (currentDataIndex 7 (some 2) (maxDurationOf c3trip.length ([] : List Sample).length))
        c3trip.length) default).soc) :=
  C3_soc_unclamped c3trip [] 7 (some 2) (List.cons_ne_nil _ _)

/-- C3 counterexample: a sample with SOC −5 is reported as −5, below
the claimed clamp floor of 0; nothing halts. -/
theorem C3_counterexample :
    (updateCore c3trip [] 0 (some 0)).metrics.getD 1 (.placeholder "") = .value (-5) ∧
    (-5 : ℚ) < 0 := by
  refine ⟨rfl, by norm_num⟩

theorem currentDataIndex_self (t : Int) (m : Nat) : currentDataIndex t (some t) m = 0 := by
  unfold currentDataIndex preIndex
  by_cases hm : m = 0
  · rw [if_neg (by omega)]
  · rw [if_pos (Nat.pos_of_ne_zero hm)]
    simp [hm]

theorem slotTraces_of_ne_nil (sl : Nat) (t : List Sample) (c : Nat) (h : t ≠ []) :
    slotTraces sl t c =
      [⟨sl, false, (t.take (currentIndex c t.length + 1)).map fun r => (r.lat, r.lon)⟩,
       ⟨sl, true, [((t.getD (currentIndex c t.length) default).lat,
                    (t.getD (currentIndex c t.length) default).lon)]⟩] := by
  have he : t.isEmpty = false := by
    cases t with
    | nil => exact absurd rfl h
    | cons a l => rfl
  simp [slotTraces, he]

/-- C1 counterexample: with selected trips of durations 2 and 5 and 4
elapsed ticks since the stored leg start, the claim's index is
(4 − 0) mod 2 = 0, but the update reads sample index 1 of the short
trip (speed 20, not the index-0 sample's speed 10): the shared index
is reduced modulo the maximum duration 5 and then clamped with `min`,
not reduced modulo this trip's own duration. -/
theorem C1_counterexample :
    (updateCore c1trip1 c1trip2 4 (some 0)).metrics.getD 0 (.placeholder "") = .value 20 ∧
    ((4 - 0 : Int) % (c1trip1.length : Int)).toNat = 0 ∧
    (c1trip1.getD 0 default).speed = 10 ∧ (20 : ℚ) ≠ 10 := by
  refine ⟨rfl, by decide, rfl, by norm_num⟩

/-- C1 (amended): the sample index used for a trip of duration D is
min((elapsed · step_size) mod maxDuration, D − 1).  It equals the
claim's (tick − legStartTick) mod D exactly when this trip's duration
equals the larger selected duration and that duration is at most 80
(so step_size = 1); and the shared index is always periodic in the
tick with period maxDuration. -/
theorem C1_looping_index (D : Nat) (n cs : Int) (hD : 0 < D) (hle : D ≤ 80) :
    (currentIndex (currentDataIndex n (some cs) (maxDurationOf D D)) D
      = ((n - cs) % (D : Int)).toNat) ∧
    ∀ d1 d2 : Nat,
      currentDataIndex (n + (maxDurationOf d1 d2 : Int)) (some cs) (maxDurationOf d1 d2)
        = currentDataIndex n (some cs) (maxDurationOf d1 d2) := by
  constructor
  · have hmax : maxDurationOf D D = D := by
      unfold maxDurationOf
      rw [if_pos (Or.inl hD)]
      exact Nat.max_self D
    rw [hmax]
    have hDne : D ≠ 0 := by omega
    have hstep : stepSize D = 1 := by
      unfold stepSize
      rw [show totalTicksForSim = 80 from rfl, if_pos ⟨hD, by norm_num⟩]
      rw [show (80 : Nat) - 1 = 79 from rfl]
      have hdiv : (D + 79) / 80 = 1 := by omega
      rw [hdiv]
      exact Nat.max_self 1
    have hcdi : currentDataIndex n (some cs) D = ((n - cs) % (D : Int)).toNat := by
      unfold currentDataIndex
      rw [if_pos hD]
      congr 1
      show (preIndex n (some cs) D) % (D : Int) = (n - cs) % (D : Int)
      simp only [preIndex]
      rw [if_neg hDne, hstep]
      norm_num
    rw [hcdi]
    have hnn : 0 ≤ (n - cs) % (D : Int) := Int.emod_nonneg _ (by exact_mod_cast hDne)
    have hlt : (n - cs) % (D : Int) < (D : Int) := Int.emod_lt_of_pos _ (by exact_mod_cast hD)
    unfold currentIndex
    rw [if_pos hD]
    omega
  · intro d1 d2
    by_cases hm : maxDurationOf d1 d2 = 0
    · rw [hm]
      rfl
    · have hmpos : 0 < maxDurationOf d1 d2 := Nat.pos_of_ne_zero hm
      unfold currentDataIndex
      rw [if_pos hmpos, if_pos hmpos]
      congr 1
      simp only [preIndex]
      rw [if_neg hm, if_neg hm]
      have hring : (n + (maxDurationOf d1 d2 : Int) - cs) * (stepSize (maxDurationOf d1 d2) : Int)
          = (n - cs) * (stepSize (maxDurationOf d1 d2) : Int)
            + (stepSize (maxDurationOf d1 d2) : Int) * (maxDurationOf d1 d2 : Int) := by ring
      rw [hring, Int.add_mul_emod_self]

/-- Witness for C1 (amended) at concrete inputs. -/
theorem C1_looping_index_witness :
    (currentIndex (currentDataIndex 7 (some 2) (maxDurationOf 5 5)) 5
      = ((7 - 2 : Int) % ((5 : Nat) : Int)).toNat) ∧
    currentDataIndex (7 + (maxDurationOf 2 5 : Int)) (some 2) (maxDurationOf 2 5)
      = currentDataIndex 7 (some 2) (maxDurationOf 2 5) :=
  ⟨(C1_looping_index 5 7 2 (by norm_num) (by norm_num)).1,
   (C1_looping_index 5 7 2 (by norm_num) (by norm_num)).2 2 5⟩

/-- C5: the reset callback stores the then-current tick no matter what
its other inputs are (the prior store contents are not even an input of
the callback), and an update performed at that same tick computes a
zero shared index and renders sample 0: the slot-0 marker sits at the
trip's first sample. -/
theorem C5_reset_fresh (a b : Option Int) (t : Int) (trip1 trip2 : List Sample)
    (h : trip1 ≠ []) :
    resetSimulationCycle a b t = t ∧
    currentDataIndex t (some (resetSimulationCycle a b t))
      (maxDurationOf trip1.length trip2.length) = 0 ∧
    (updateCore trip1 trip2 t (some (resetSimulationCycle a b t))).traces.getD 1
        ⟨9, true, []⟩
      = ⟨0, true, [((trip1.getD 0 default).lat, (trip1.getD 0 default).lon)]⟩ := by
  refine ⟨rfl, currentDataIndex_self t _, ?_⟩
  have hr : resetSimulationCycle a b t = t := rfl
  rw [updateCore_traces, hr, currentDataIndex_self t _]
  rw [slotTraces_of_ne_nil 0 trip1 0 h]
  have hidx : currentIndex 0 trip1.length = 0 := by
    unfold currentIndex
    rw [if_pos (List.length_pos.mpr h)]
    omega
  rw [hidx]
  rfl

/-- Witness for C5 at a concrete input. -/
theorem C5_reset_fresh_witness :
    resetSimulationCycle (some 3) none 5 = 5 ∧
    currentDataIndex 5 (some (resetSimulationCycle (some 3) none 5))
      (maxDurationOf c3trip.length ([] : List Sample).length) = 0 ∧
    (updateCore c3trip [] 5 (some (resetSimulationCycle (some 3) none 5))).traces.getD 1
        ⟨9, true, []⟩
      = ⟨0, true, [((c3trip.getD 0 default).lat, (c3trip.getD 0 default).lon)]⟩ :=
  C5_reset_fresh (some 3) none 5 c3trip [] (List.cons_ne_nil _ _)

theorem path_spec (t : List Sample) (c : Nat) (h : t ≠ []) :
    (((t.take (currentIndex c t.length + 1)).map fun r => (r.lat, r.lon)).length
      = currentIndex c t.length + 1) ∧
    ∀ j ≤ currentIndex c t.length,
      ((t.take (currentIndex c t.length + 1)).map fun r => (r.lat, r.lon)).getD j (0, 0)
        = ((t.getD j default).lat, (t.getD j default).lon) := by
  have hlt : currentIndex c t.length < t.length := currentIndex_lt (List.length_pos.mpr h)
  constructor
  · rw [List.length_map, List.length_take]
    omega
  · intro j hj
    rw [List.getD_eq_getElem?_getD, List.getElem?_map, List.getElem?_take_of_lt (by omega)]
    rw [List.getElem?_eq_getElem (by omega)]
    simp only [Option.map_some', Option.getD_some]
    rw [List.getD_eq_getElem?_getD, List.getElem?_eq_getElem (by omega : j < t.length)]
    rfl

/-- C8: on a non-empty trip the slot's path trace holds exactly the
positions of samples 0 through the current index inclusive (length
index + 1, pointwise the samples' positions), and the marker trace is
the current sample's position. -/
theorem C8_path_and_marker (trip1 trip2 : List Sample) (n : Int) (cs : Option Int)
    (h : trip1 ≠ []) :
    ((updateCore trip1 trip2 n cs).traces.getD 0 ⟨9, true, []⟩).positions.length
      = currentIndex (currentDataIndex n cs (maxDurationOf trip1.length trip2.length))
          trip1.length + 1 ∧
    (∀ j ≤ currentIndex (currentDataIndex n cs (maxDurationOf trip1.length trip2.length))
          trip1.length,
      ((updateCore trip1 trip2 n cs).traces.getD 0 ⟨9, true, []⟩).positions.getD j (0, 0)
        = ((trip1.getD j default).lat, (trip1.getD j default).lon)) ∧
    (updateCore trip1 trip2 n cs).traces.getD 1 ⟨9, true, []⟩
      = ⟨0, true,
          [((trip1.getD (currentIndex (currentDataIndex n cs
              (maxDurationOf trip1.length trip2.length)) trip1.length) default).lat,
            (trip1.getD (currentIndex (currentDataIndex n cs
              (maxDurationOf trip1.length trip2.length)) trip1.length) default).lon)]⟩ := by
  have hcore := updateCore_traces trip1 trip2 n cs
  have hs := slotTraces_of_ne_nil 0 trip1
    (currentDataIndex n cs (maxDurationOf trip1.length trip2.length)) h
  have htr : (updateCore trip1 trip2 n cs).traces.getD 0 ⟨9, true, []⟩
      = ⟨0, false, (trip1.take (currentIndex (currentDataIndex n cs
          (maxDurationOf trip1.length trip2.length)) trip1.length + 1)).map
            fun r => (r.lat, r.lon)⟩ := by
    rw [hcore, hs]
    rfl
  have hmk : (updateCore trip1 trip2 n cs).traces.getD 1 ⟨9, true, []⟩
      = ⟨0, true,
          [((trip1.getD (currentIndex (currentDataIndex n cs
              (maxDurationOf trip1.length trip2.length)) trip1.length) default).lat,
            (trip1.getD (currentIndex (currentDataIndex n cs
              (maxDurationOf trip1.length trip2.length)) trip1.length) default).lon)]⟩ := by
    rw [hcore, hs]
    rfl
  refine ⟨?_, ?_, hmk⟩
  · rw [htr]
    exact (path_spec trip1 _ h).1
  · intro j hj
    rw [htr]
    exact (path_spec trip1 _ h).2 j hj

/-- Witness for C8 at a concrete input. -/
theorem C8_path_and_marker_witness :
    ((updateCore c1trip1 c1trip2 4 (some 0)).traces.getD 0 ⟨9, true, []⟩).positions.length
      = currentIndex (currentDataIndex 4 (some 0)
          (maxDurationOf c1trip1.length c1trip2.length)) c1trip1.length + 1 ∧
    ((updateCore c1trip1 c1trip2 4 (some 0)).traces.getD 0 ⟨9, true, []⟩).positions.getD 0 (0, 0)
      = ((c1trip1.getD 0 default).lat, (c1trip1.getD 0 default).lon) ∧
    (updateCore c1trip1 c1trip2 4 (some 0)).traces.getD 1 ⟨9, true, []⟩
      = ⟨0, true,
          [((c1trip1.getD (currentIndex (currentDataIndex 4 (some 0)
              (maxDurationOf c1trip1.length c1trip2.length)) c1trip1.length) default).lat,
            (c1trip1.getD (currentIndex (currentDataIndex 4 (some 0)
              (maxDurationOf c1trip1.length c1trip2.length)) c1trip1.length) default).lon)]⟩ :=
  ⟨(C8_path_and_marker c1trip1 c1trip2 4 (some 0) (List.cons_ne_nil _ _)).1,
   (C8_path_and_marker c1trip1 c1trip2 4 (some 0) (List.cons_ne_nil _ _)).2.1 0 (Nat.zero_le _),
   (C8_path_and_marker c1trip1 c1trip2 4 (some 0) (List.cons_ne_nil _ _)).2.2⟩

/-- C9: the per-tick update never mutates the telemetry store — the
dataframe it returns is the one it received — and its outputs factor
entirely through the two fresh `get_trip_data` fetches of the current
tick: two stores whose fetches agree produce identical outputs. -/
theorem C9_no_mutation (df df2 : List Sample) (inp : DashInputs)
    (h1 : getTripData df inp.vehicleId1 inp.tripId1
        = getTripData df2 inp.vehicleId1 inp.tripId1)
    (h2 : getTripData df inp.vehicleId2 inp.tripId2
        = getTripData df2 inp.vehicleId2 inp.tripId2) :
    (updateMultiTripDashboard df inp).1 = df ∧
    (updateMultiTripDashboard df2 inp).1 = df2 ∧
    (updateMultiTripDashboard df inp).2 = (updateMultiTripDashboard df2 inp).2 := by
  refine ⟨rfl, rfl, ?_⟩
  simp only [updateMultiTripDashboard]
  rw [h1, h2]

/-- An extra store row matching neither selection of the C9 witness. -/
def c9extra : Sample := ⟨0, 3, 3, 0, 0, 0, 0, 0, 0, 0⟩

/-- Witness for C9 at concrete inputs: two stores differing by an
unselected row fetch the same trip frames and emit the same outputs. -/
theorem C9_no_mutation_witness :
    (updateMultiTripDashboard c3trip ⟨0, 1, 1, 1, 1, some 0⟩).1 = c3trip ∧
    (updateMultiTripDashboard (c3trip ++ [c9extra]) ⟨0, 1, 1, 1, 1, some 0⟩).1
      = c3trip ++ [c9extra] ∧
    (updateMultiTripDashboard c3trip ⟨0, 1, 1, 1, 1, some 0⟩).2
      = (updateMultiTripDashboard (c3trip ++ [c9extra]) ⟨0, 1, 1, 1, 1, some 0⟩).2 :=
  C9_no_mutation c3trip (c3trip ++ [c9extra]) ⟨0, 1, 1, 1, 1, some 0⟩ rfl rfl

/-- C10: on a non-empty trip the emitted metrics report the current
sample's speed, state of charge, voltage and accumulated energy
verbatim (before display rounding), and power as the sample's power
divided by 1000, for both slots. -/
theorem C10_metrics_verbatim (trip1 trip2 : List Sample) (n : Int) (cs : Option Int) :
    (trip1 ≠ [] →
      ((updateCore trip1 trip2 n cs).metrics.getD 0 (.placeholder "")
          = .value ((trip1.getD (currentIndex (currentDataIndex n cs
              (maxDurationOf trip1.length trip2.length)) trip1.length) default).speed) ∧
       (updateCore trip1 trip2 n cs).metrics.getD 1 (.placeholder "")
          = .value ((trip1.getD (currentIndex (currentDataIndex n cs
              (maxDurationOf trip1.length trip2.length)) trip1.length) default).soc) ∧
       (updateCore trip1 trip2 n cs).metrics.getD 2 (.placeholder "")
          = .value ((trip1.getD (currentIndex (currentDataIndex n cs
              (maxDurationOf trip1.length trip2.length)) trip1.length) default).voltage) ∧
       (updateCore trip1 trip2 n cs).metrics.getD 3 (.placeholder "")
          = .value ((trip1.getD (currentIndex (currentDataIndex n cs
              (maxDurationOf trip1.length trip2.length)) trip1.length) default).power / 1000) ∧
       (updateCore trip1 trip2 n cs).metrics.getD 4 (.placeholder "")
          = .value ((trip1.getD (currentIndex (currentDataIndex n cs
              (maxDurationOf trip1.length trip2.length)) trip1.length) default).accumEnergy))) ∧
    (trip2 ≠ [] →
      ((updateCore trip1 trip2 n cs).metrics.getD 7 (.placeholder "")
          = .value ((trip2.getD (currentIndex (currentDataIndex n cs
              (maxDurationOf trip1.length trip2.length)) trip2.length) default).speed) ∧
       (updateCore trip1 trip2 n cs).metrics.getD 8 (.placeholder "")
          = .value ((trip2.getD (currentIndex (currentDataIndex n cs
              (maxDurationOf trip1.length trip2.length)) trip2.length) default).soc) ∧
       (updateCore trip1 trip2 n cs).metrics.getD 9 (.placeholder "")
          = .value ((trip2.getD (currentIndex (currentDataIndex n cs
              (maxDurationOf trip1.length trip2.length)) trip2.length) default).voltage) ∧
       (updateCore trip1 trip2 n cs).metrics.getD 10 (.placeholder "")
          = .value ((trip2.getD (currentIndex (currentDataIndex n cs
              (maxDurationOf trip1.length trip2.length)) trip2.length) default).power / 1000) ∧
       (updateCore trip1 trip2 n cs).metrics.getD 11 (.placeholder "")
          = .value ((trip2.getD (currentIndex (currentDataIndex n cs
              (maxDurationOf trip1.length trip2.length)) trip2.length) default).accumEnergy))) := by
  constructor
  · intro h
    rw [metrics_getD_left _ _ _ _ 0 (by omega), metrics_getD_left _ _ _ _ 1 (by omega),
        metrics_getD_left _ _ _ _ 2 (by omega), metrics_getD_left _ _ _ _ 3 (by omega),
        metrics_getD_left _ _ _ _ 4 (by omega), slotMetrics_of_ne_nil _ _ h]
    exact ⟨rfl, rfl, rfl, rfl, rfl⟩
  · intro h
    rw [metrics_getD_right _ _ _ _ 7 (by omega), metrics_getD_right _ _ _ _ 8 (by omega),
        metrics_getD_right _ _ _ _ 9 (by omega), metrics_getD_right _ _ _ _ 10 (by omega),
        metrics_getD_right _ _ _ _ 11 (by omega), slotMetrics_of_ne_nil _ _ h]
    exact ⟨rfl, rfl, rfl, rfl, rfl⟩

/-- Witness for C10 at a concrete input (both slots non-empty). -/
theorem C10_metrics_verbatim_witness :
    (updateCore c1trip1 c1trip2 4 (some 0)).metrics.getD 0 (.placeholder "")
      = .value ((c1trip1.getD (currentIndex (currentDataIndex 4 (some 0)
          (maxDurationOf c1trip1.length c1trip2.length)) c1trip1.length) default).speed) ∧
    (updateCore c1trip1 c1trip2 4 (some 0)).metrics.getD 10 (.placeholder "")
      = .value ((c1trip2.getD (currentIndex (currentDataIndex 4 (some 0)
          (maxDurationOf c1trip1.length c1trip2.length)) c1trip2.length) default).power / 1000) :=
  ⟨((C10_metrics_verbatim c1trip1 c1trip2 4 (some 0)).1 (List.cons_ne_nil _ _)).1,
   ((C10_metrics_verbatim c1trip1 c1trip2 4 (some 0)).2 (by simp [c1trip2])).2.2.2.1⟩

theorem tsLe_trans : ∀ a b c : Sample, tsLe a b → tsLe b c → tsLe a c := by
  intro a b c hab hbc
  simp only [tsLe, decide_eq_true_eq] at *
  omega

theorem tsLe_total : ∀ a b : Sample, tsLe a b || tsLe b a := by
  intro a b
  simp only [tsLe, Bool.or_eq_true, decide_eq_true_eq]
  omega

/-- C7: every trip frame obtained through `get_trip_data` from a
loaded store is sorted by timestamp ascending and holds only samples
whose raw timestamp parsed: rows failing to parse were dropped at
load, the whole dataset was sorted by timestamp before any query, and
the per-trip filter preserves that order. -/
theorem C7_sorted_and_valid (raws : List RawRow) (v t : Int) :
    List.Sorted (fun a b : Sample => a.ts ≤ b.ts)
      (getTripData (loadAndPrepareData raws) v t) ∧
    ∀ s ∈ getTripData (loadAndPrepareData raws) v t,
      ∃ r ∈ raws, r.tsMs = some s.ts := by
  have hsorted : List.Sorted (fun a b : Sample => a.ts ≤ b.ts) (loadAndPrepareData raws) := by
    have hp : (List.mergeSort (raws.filterMap RawRow.toSample) tsLe).Pairwise
        (fun a b => tsLe a b) :=
      List.sorted_mergeSort tsLe_trans tsLe_total (raws.filterMap RawRow.toSample)
    exact hp.imp fun hab => by simpa [tsLe, decide_eq_true_eq] using hab
  constructor
  · exact hsorted.filter _
  · intro s hs
    have hs1 : s ∈ loadAndPrepareData raws := List.mem_of_mem_filter hs
    have hs2 : s ∈ raws.filterMap RawRow.toSample := List.mem_mergeSort.mp hs1
    rcases List.mem_filterMap.mp hs2 with ⟨r, hr, hsome⟩
    refine ⟨r, hr, ?_⟩
    simp only [RawRow.toSample] at hsome
    rcases Option.map_eq_some'.mp hsome with ⟨t0, ht0, hf⟩
    rw [ht0, ← hf]

/-- Raw rows for the C7 witness: one unparseable row and two parseable
rows. -/
def c7raws : List RawRow :=
  [⟨none, 1, 1, 0, 0, 0, 0, 0, 0, 0⟩,
   ⟨some 3, 1, 1, 0, 0, 0, 0, 0, 0, 0⟩,
   ⟨some 5, 1, 1, 0, 0, 0, 0, 0, 0, 0⟩]

/-- The sample arising from the second raw row of `c7raws`. -/
def c7sample : Sample := ⟨3, 1, 1, 0, 0, 0, 0, 0, 0, 0⟩

/-- Witness for C7 at a concrete input. -/
theorem C7_sorted_and_valid_witness :
    List.Sorted (fun a b : Sample => a.ts ≤ b.ts)
      (getTripData (loadAndPrepareData c7raws) 1 1) ∧
    ∃ r ∈ c7raws, r.tsMs = some c7sample.ts :=
  ⟨(C7_sorted_and_valid c7raws 1 1).1,
   (C7_sorted_and_valid c7raws 1 1).2 c7sample (by
      have hmem : c7sample ∈ loadAndPrepareData c7raws := by
        rw [loadAndPrepareData, List.mem_mergeSort]
        decide
      exact List.mem_filter.mpr ⟨hmem, by decide⟩)⟩
